import Mathlib

/-!
Verification development for the Cloudflare worker relay in `_worker.js`.

The worker is a forward proxy: it resolves a target URL from the inbound
request (query parameter, path, or configured default), relays plain HTTP
requests with header rewriting, and relays WebSocket sessions by pairing an
inbound socket with an outbound dial and piping message/close/error events
between the two. The definitions below are a shallow embedding of that
code: each definition mirrors one function or one block of `_worker.js`,
with the platform primitives (URL parsing, the `Headers` object, socket
readyState) modelled explicitly.
-/

/-- ASCII lowercasing of one character; used for the case-insensitive
header-name comparison that the platform `Headers` object performs. -/
def lowerChar (c : Char) : Char :=
  if 65 ≤ c.toNat ∧ c.toNat ≤ 90 then Char.ofNat (c.toNat + 32) else c

/-- ASCII lowercasing of a string. -/
def lower (s : String) : String := ⟨s.data.map lowerChar⟩

/-- JavaScript `String.prototype.startsWith`. -/
def strStartsWith (s p : String) : Bool := s.data.take p.data.length == p.data

/-- JavaScript `String.prototype.substring(n)`. -/
def strDrop (s : String) (n : Nat) : String := ⟨s.data.drop n⟩

/-- A header map as the platform `Headers` object exposes it: a list of
name/value pairs where lookup, overwrite and deletion compare names
case-insensitively. -/
abbrev Headers := List (String × String)

/-- `Headers.get`: first entry whose name matches case-insensitively. -/
def hget : Headers → String → Option String
  | [], _ => none
  | p :: rest, n => if lower p.1 = lower n then some p.2 else hget rest n

/-- `Headers.delete`: drop every entry whose name matches case-insensitively. -/
def hdelete : Headers → String → Headers
  | [], _ => []
  | p :: rest, n => if lower p.1 = lower n then hdelete rest n else p :: hdelete rest n

/-- `Headers.set`: replace any same-named entries with the new pair. -/
def hset (hs : Headers) (n v : String) : Headers := hdelete hs n ++ [(n, v)]

/-- `CONFIG.REMOVE_HEADERS.forEach(h => headers.delete(h))`. -/
def deleteAll (hs : Headers) (names : List String) : Headers := names.foldl hdelete hs

/-- A parsed absolute URL, the part of the WHATWG `URL` class the worker
reads and writes: the scheme (`protocol` without the colon), the host, and
the rest (path plus query). -/
structure Url where
  scheme : String
  host : String
  path : String
  deriving DecidableEq, Repr

/-- Serialisation of a parsed URL, as `URL.prototype.toString`. -/
def urlToString (u : Url) : String := u.scheme ++ "://" ++ u.host ++ u.path

/-- Locate the first `://` separator in a character list, returning the
characters before it and after it. -/
def findSchemeSep : List Char → Option (List Char × List Char)
  | [] => none
  | ':' :: '/' :: '/' :: rest => some ([], rest)
  | c :: rest =>
    match findSchemeSep rest with
    | some (pre, post) => some (c :: pre, post)
    | none => none

/-- Characters admissible in a URL scheme. -/
def isSchemeChar (c : Char) : Bool := c.isAlpha || c.isDigit || c == '+' || c == '-' || c == '.'

/-- Model of `new URL(s)` on an absolute URL string: it succeeds exactly
when the string has the shape `scheme://host...` with a well-formed scheme
and a non-empty host, and it lowercases the scheme as the WHATWG parser
does. Any other string makes the constructor throw, modelled as `none`. -/
def parseUrl (s : String) : Option Url :=
  match findSchemeSep s.data with
  | none => none
  | some (schemeCs, rest) =>
    if schemeCs.isEmpty then none
    else if !(schemeCs.all isSchemeChar) then none
    else
      let hostCs := rest.takeWhile (fun c => !(c == '/') && !(c == '?') && !(c == '#'))
      let pathCs := rest.drop hostCs.length
      if hostCs.isEmpty then none
      else some { scheme := lower ⟨schemeCs⟩, host := ⟨hostCs⟩,
                  path := if pathCs.isEmpty then "/" else ⟨pathCs⟩ }

/-- The CORS block of the worker's `CONFIG` constant. -/
structure CorsConfig where
  enabled : Bool
  allowOrigin : String
  allowMethods : String
  allowHeaders : String
  maxAge : Nat
  deriving DecidableEq, Repr

/-- The worker's `CONFIG` constant, as a structure so that theorems can
quantify over configured values where the claims do. -/
structure Config where
  DEFAULT_TARGET : Option String
  DEBUG : Bool
  MAX_BODY_SIZE : Nat
  TIMEOUT : Nat
  CORS : CorsConfig
  SECURITY_HEADERS : List (String × String)
  REMOVE_HEADERS : List String
  deriving DecidableEq, Repr

/-- The literal `CONFIG` object from `_worker.js`. -/
def CONFIG : Config where
  DEFAULT_TARGET := none
  DEBUG := false
  MAX_BODY_SIZE := 10 * 1024 * 1024
  TIMEOUT := 30000
  CORS := { enabled := true, allowOrigin := "*",
            allowMethods := "GET, POST, PUT, DELETE, OPTIONS, HEAD, PATCH",
            allowHeaders := "*", maxAge := 86400 }
  SECURITY_HEADERS := [("X-Content-Type-Options", "nosniff"),
                       ("X-Frame-Options", "SAMEORIGIN"),
                       ("X-XSS-Protection", "1; mode=block"),
                       ("Referrer-Policy", "strict-origin-when-cross-origin")]
  REMOVE_HEADERS := ["cf-ray", "cf-connecting-ip", "cf-visitor", "cf-request-id",
                     "x-forwarded-for", "x-forwarded-proto", "x-real-ip"]

/-- The pieces of `new URL(request.url)` that the worker reads: the path,
the raw query string, and `searchParams.get('target')` (which is `null`
when the parameter is absent and `""` when it is present but empty). -/
structure InUrl where
  pathname : String
  search : String
  targetParam : Option String
  deriving DecidableEq, Repr

/-- An inbound request as the worker observes it. -/
structure Req where
  method : String
  url : InUrl
  headers : Headers
  deriving DecidableEq, Repr

/-- Response bodies, abstracted to the classes the worker produces. -/
inductive Body where
  /-- `new Response(null, ...)`. -/
  | empty : Body
  /-- A plain-text body such as the 400 messages of the WebSocket path. -/
  | text (s : String) : Body
  /-- The JSON info document of `createInfoResponse` (name, usage, features). -/
  | infoJson : Body
  /-- The JSON error document of `handleError`: an `error` flag and a message. -/
  | errorJson (error : Bool) (message : String) : Body
  /-- The target's body streamed through unchanged. -/
  | stream : Body
  deriving DecidableEq, Repr

/-- A response as the worker builds it. -/
structure Resp where
  status : Nat
  headers : Headers
  body : Body
  deriving DecidableEq, Repr

/-- `handleCORS()`: the CORS-preflight response. -/
def handleCORS (cfg : Config) : Resp where
  status := 204
  headers := [("Access-Control-Allow-Origin", cfg.CORS.allowOrigin),
              ("Access-Control-Allow-Methods", cfg.CORS.allowMethods),
              ("Access-Control-Allow-Headers", cfg.CORS.allowHeaders),
              ("Access-Control-Max-Age", toString cfg.CORS.maxAge)]
  body := .empty

/-- `createInfoResponse()`: the informational JSON response returned when
no target can be resolved. -/
def createInfoResponse (cfg : Config) : Resp where
  status := 200
  headers := ("Content-Type", "application/json") :: cfg.SECURITY_HEADERS
  body := .infoJson

/-- `handleError(error)`: the catch-all 500 JSON error response with an
`error: true` flag and a message. -/
def handleError (cfg : Config) (msg : String) : Resp where
  status := 500
  headers := ("Content-Type", "application/json") :: cfg.SECURITY_HEADERS
  body := .errorJson true msg

/-- JavaScript truthiness of a nullable string: `null` and `""` are falsy. -/
def jsTruthy : Option String → Bool
  | none => false
  | some s => !(s = "")

/-- The scheme substitution of `handleWebSocket`: `http:` becomes `ws:`,
`https:` becomes `wss:`, anything else is dialled unchanged. -/
def coerceWsScheme (u : Url) : Url :=
  if u.scheme = "http" then { u with scheme := "ws" }
  else if u.scheme = "https" then { u with scheme := "wss" }
  else u

/-- Outcome of `handleWebSocket(request, url)`. -/
inductive WsResult where
  /-- `!targetParam`: the 400 "Missing target parameter" response. -/
  | missingTarget : WsResult
  /-- The catch branch: the 400 "WebSocket error" response (URL parse failure). -/
  | wsError : WsResult
  /-- The 101 response: inbound socket accepted, outbound dial started to `dialUrl`. -/
  | session (dialUrl : Url) : WsResult
  deriving DecidableEq, Repr

/-- The HTTP status of each `handleWebSocket` outcome. -/
def wsStatus : WsResult → Nat
  | .missingTarget => 400
  | .wsError => 400
  | .session _ => 101

/-- `handleWebSocket(request, url)`: reads only the `target` query
parameter, rejects a missing (falsy) one with a 400, parses it, coerces the
scheme, and otherwise accepts the inbound socket and dials the target. -/
def handleWebSocket (req : Req) : WsResult :=
  match req.url.targetParam with
  | none => .missingTarget
  | some t =>
    if t = "" then .missingTarget
    else
      match parseUrl t with
      | none => .wsError
      | some u => .session (coerceWsScheme u)

/-- The target-resolution chain at the top of `handleHTTP`: query
parameter if truthy, else the path without its leading slash when it starts
with the literal `"http"`, else the configured default target concatenated
with path and query, else no target. -/
def resolveTarget (cfg : Config) (u : InUrl) : Option String :=
  let targetParam := u.targetParam
  let pathTarget := strDrop u.pathname 1
  if jsTruthy targetParam then targetParam
  else if !(pathTarget = "") && strStartsWith pathTarget "http" then some pathTarget
  else if jsTruthy cfg.DEFAULT_TARGET then
    some (cfg.DEFAULT_TARGET.getD "" ++ u.pathname ++ u.search)
  else none

/-- The request-init record the worker passes to `new Request(target, ...)`.
The platform accepts an optional abort signal / timeout in this record; the
worker's literal has only `method`, `headers`, `body` and `redirect`, so the
embedding carries the signal field explicitly to record that it is absent. -/
structure OutRequest where
  url : Url
  method : String
  headers : Headers
  redirect : String
  signal : Option Nat
  deriving DecidableEq, Repr

/-- The inbound-header rewriting of `handleHTTP`: delete every configured
removal-list name, overwrite `Host` with the target's host, then delete
`Origin`. -/
def sanitizeHeaders (cfg : Config) (hs : Headers) (target : Url) : Headers :=
  hdelete (hset (deleteAll hs cfg.REMOVE_HEADERS) "Host" target.host) "Origin"

/-- Outcome of `handleHTTP(request, url)` up to the outbound fetch. -/
inductive HttpResult where
  /-- No target resolvable: `createInfoResponse()` is returned. -/
  | info : HttpResult
  /-- `new URL(targetUrl)` threw: the catch branch returns `handleError`. -/
  | malformed : HttpResult
  /-- A sanitized outbound request is fetched. -/
  | relay (r : OutRequest) : HttpResult
  deriving DecidableEq, Repr

/-- `handleHTTP(request, url)`: resolve the target, parse it, and either
fail early or build the outbound request exactly as the source does. -/
def handleHTTP (cfg : Config) (req : Req) : HttpResult :=
  match resolveTarget cfg req.url with
  | none => .info
  | some t =>
    match parseUrl t with
    | none => .malformed
    | some target =>
      .relay { url := target, method := req.method,
               headers := sanitizeHeaders cfg req.headers target,
               redirect := "follow", signal := none }

/-- The immediate response of the non-relay `handleHTTP` outcomes. -/
def httpEarlyResponse (cfg : Config) : HttpResult → Option Resp
  | .info => some (createInfoResponse cfg)
  | .malformed => some (handleError cfg "Invalid URL")
  | .relay _ => none

/-- The response-header rewriting of `handleHTTP`: CORS headers when
enabled, then the security headers, then the removal list again. -/
def decorateHeaders (cfg : Config) (h : Headers) : Headers :=
  let h1 :=
    if cfg.CORS.enabled then
      hset (hset (hset h "Access-Control-Allow-Origin" cfg.CORS.allowOrigin)
        "Access-Control-Allow-Methods" cfg.CORS.allowMethods)
        "Access-Control-Allow-Headers" cfg.CORS.allowHeaders
    else h
  let h2 := cfg.SECURITY_HEADERS.foldl (fun acc p => hset acc p.1 p.2) h1
  deleteAll h2 cfg.REMOVE_HEADERS

/-- The response rebuild of `handleHTTP`: same status, status text and body
stream, headers decorated. -/
def decorateResponse (cfg : Config) (r : Resp) : Resp :=
  { r with headers := decorateHeaders cfg r.headers }

/-- What `handleHTTP` returns once the outbound fetch settles: a fetch
rejection lands in the catch branch (`handleError`), a response is
decorated and passed through. -/
def relayOutcome (cfg : Config) (fr : Except String Resp) : Resp :=
  match fr with
  | .error msg => handleError cfg msg
  | .ok r => decorateResponse cfg r

/-- Dispatch outcome of the exported `fetch` handler. -/
inductive Dispatch where
  /-- The OPTIONS branch: `handleCORS()`. -/
  | preflight (r : Resp) : Dispatch
  /-- The upgrade branch: `handleWebSocket`. -/
  | ws (w : WsResult) : Dispatch
  /-- The default branch: `handleHTTP`. -/
  | http (h : HttpResult) : Dispatch
  deriving DecidableEq, Repr

/-- The exported `fetch(request, env, ctx)` dispatcher: OPTIONS first, then
the `Upgrade: websocket` header check, then plain HTTP. -/
def workerFetch (cfg : Config) (req : Req) : Dispatch :=
  if req.method = "OPTIONS" then .preflight (handleCORS cfg)
  else if hget req.headers "Upgrade" = some "websocket" then .ws (handleWebSocket req)
  else .http (handleHTTP cfg req)

/-- The outbound connection a dispatch outcome initiates, if any: the dial
URL of an accepted WebSocket session or the fetched URL of an HTTP relay. -/
def dispatchOutbound : Dispatch → Option String
  | .preflight _ => none
  | .ws (.session u) => some (urlToString u)
  | .ws _ => none
  | .http (.relay r) => some (urlToString r.url)
  | .http _ => none

/-- A WebSocket `readyState`, with the names of the platform constants. -/
inductive SockState where
  | CONNECTING : SockState
  | OPEN : SockState
  | CLOSING : SockState
  | CLOSED : SockState
  deriving DecidableEq, Repr

/-- `ws.close()`: a socket that is not yet closed enters the closing
handshake; a closed socket is unaffected. -/
def jsClose : SockState → SockState
  | .CLOSED => .CLOSED
  | _ => .CLOSING

/-- A WebSocket message payload; the constructor records the text/binary
payload type that `event.data` carries. -/
inductive Data where
  | text (s : String) : Data
  | binary (b : List Nat) : Data
  deriving DecidableEq, Repr

/-- The state of one relay session: the accepted caller-facing socket
(`serverWs` in `connectWebSocket`) and the dialled target socket
(`targetWs`). -/
structure Session where
  server : SockState
  target : SockState
  deriving DecidableEq, Repr

/-- The session state right after `handleWebSocket` accepts the caller
socket and `connectWebSocket` starts the outbound dial. -/
def initialSession : Session where
  server := .OPEN
  target := .CONNECTING

/-- The events a session can experience: a message or a close or error
event on either socket, completion of the outbound handshake, and a
synchronous throw of the outbound dial itself. -/
inductive Ev where
  | serverMessage (d : Data) : Ev
  | targetMessage (d : Data) : Ev
  | serverClose : Ev
  | targetClose : Ev
  | serverError : Ev
  | targetError : Ev
  | targetOpen : Ev
  | dialFail : Ev
  deriving DecidableEq, Repr

/-- When an event can fire: messages arrive only on an open socket, close
and error events only on a socket that is not already closed, the outbound
handshake completes only while the target is connecting, and the dial can
only throw before any connection exists. -/
def enabled (s : Session) : Ev → Bool
  | .serverMessage _ => s.server == .OPEN
  | .targetMessage _ => s.target == .OPEN
  | .serverClose => !(s.server == .CLOSED)
  | .targetClose => !(s.target == .CLOSED)
  | .serverError => !(s.server == .CLOSED)
  | .targetError => !(s.target == .CLOSED)
  | .targetOpen => s.target == .CONNECTING
  | .dialFail => s.target == .CONNECTING

/-- One step of the session: the intrinsic socket transition of the event
followed by the event listener that `connectWebSocket` installs.  The
message listeners do not change socket state; a close event marks its own
socket closed and the listener closes the peer only when the peer's
`readyState` equals `OPEN`; the error listeners likewise close the peer
only when it is `OPEN`; the outbound handshake opens the target; a throw of
the dial runs the catch branch, which calls `serverWs.close()`
unconditionally. -/
def sessionStep (s : Session) : Ev → Session
  | .serverMessage _ => s
  | .targetMessage _ => s
  | .serverClose =>
    let s1 : Session := { s with server := .CLOSED }
    if s1.target = .OPEN then { s1 with target := jsClose s1.target } else s1
  | .targetClose =>
    let s1 : Session := { s with target := .CLOSED }
    if s1.server = .OPEN then { s1 with server := jsClose s1.server } else s1
  | .serverError =>
    if s.target = .OPEN then { s with target := jsClose s.target } else s
  | .targetError =>
    if s.server = .OPEN then { s with server := jsClose s.server } else s
  | .targetOpen => { s with target := .OPEN }
  | .dialFail => { s with server := jsClose s.server }

/-- The messages a step sends onward: a message listener forwards
`event.data` verbatim to the peer exactly when the peer's `readyState`
equals `OPEN`, and no other listener sends anything. -/
def sessionSends (s : Session) : Ev → List (Bool × Data)
  | .serverMessage d => if s.target = .OPEN then [(true, d)] else []
  | .targetMessage d => if s.server = .OPEN then [(false, d)] else []
  | _ => []

/-- The session states reachable from the freshly accepted session by
enabled events. -/
inductive Reachable : Session → Prop where
  | init : Reachable initialSession
  | next (s : Session) (e : Ev) : Reachable s → enabled s e = true → Reachable (sessionStep s e)

/-- A dangling half-open pair: one socket closed while the other is open. -/
def halfOpen (s : Session) : Prop :=
  (s.server = .CLOSED ∧ s.target = .OPEN) ∨ (s.target = .CLOSED ∧ s.server = .OPEN)

theorem hget_append (h1 h2 : Headers) (n : String) :
    hget (h1 ++ h2) n =
      match hget h1 n with
      | some v => some v
      | none => hget h2 n := by
  induction h1 with
  | nil => simp [hget]
  | cons p rest ih =>
    by_cases h : lower p.1 = lower n
    · simp [hget, h]
    · simp [hget, h, ih]

theorem hget_hdelete (hs : Headers) (n m : String) :
    hget (hdelete hs m) n = if lower n = lower m then none else hget hs n := by
  induction hs with
  | nil => simp [hget, hdelete]
  | cons p rest ih =>
    by_cases h1 : lower p.1 = lower m
    · by_cases h2 : lower n = lower m
      · simp [hdelete, h1, ih, h2]
      · have h3 : ¬ lower p.1 = lower n := fun hc => h2 (hc.symm.trans h1)
        have h4 : ¬ lower m = lower n := fun hc => h2 hc.symm
        simp [hdelete, h1, ih, h2, hget, h3, h4]
    · by_cases h2 : lower p.1 = lower n
      · have h3 : ¬ lower n = lower m := fun hc => h1 (h2.trans hc)
        simp [hdelete, h1, hget, h2, h3]
      · simp [hdelete, h1, hget, h2, ih]

theorem hget_hset (hs : Headers) (n m v : String) :
    hget (hset hs m v) n = if lower n = lower m then some v else hget hs n := by
  unfold hset
  rw [hget_append, hget_hdelete]
  by_cases h : lower n = lower m
  · simp [h, hget]
  · have h2 : ¬ lower m = lower n := fun hc => h hc.symm
    cases hq : hget hs n <;> simp [h, hget, h2, hq]

theorem deleteAll_cons (hs : Headers) (a : String) (names : List String) :
    deleteAll hs (a :: names) = deleteAll (hdelete hs a) names := rfl

theorem hget_deleteAll_of_none (hs : Headers) (names : List String) (n : String)
    (h : hget hs n = none) : hget (deleteAll hs names) n = none := by
  induction names generalizing hs with
  | nil => simpa [deleteAll] using h
  | cons a rest ih =>
    rw [deleteAll_cons]
    apply ih
    rw [hget_hdelete]
    simp [h]

theorem hget_deleteAll_mem (hs : Headers) (names : List String) (n m : String)
    (hm : m ∈ names) (he : lower n = lower m) : hget (deleteAll hs names) n = none := by
  induction names generalizing hs with
  | nil => cases hm
  | cons a rest ih =>
    rw [deleteAll_cons]
    rcases List.mem_cons.mp hm with rfl | hm2
    · apply hget_deleteAll_of_none
      rw [hget_hdelete]
      simp [he]
    · exact ih (hdelete hs a) hm2

theorem hget_deleteAll_not_mem (hs : Headers) (names : List String) (n : String)
    (h : ∀ m ∈ names, ¬ lower n = lower m) : hget (deleteAll hs names) n = hget hs n := by
  induction names generalizing hs with
  | nil => rfl
  | cons a rest ih =>
    rw [deleteAll_cons, ih _ (fun m hm => h m (List.mem_cons_of_mem a hm))]
    rw [hget_hdelete]
    simp [h a (List.mem_cons_self a rest)]

/-- Claim C2: during a WebSocket relay session, a message event on one
socket is forwarded to the other socket, with the payload and its
text/binary type passed through verbatim, exactly when the destination
socket's readyState is open; when the destination is not open the message
is silently dropped — nothing is sent, and in either case the session state
is unchanged, so no queue grows and no fault is raised. -/
theorem claim_C2_message_forwarding (s : Session) (d e : Data) :
    ((true, d) ∈ sessionSends s (Ev.serverMessage e) ↔
      d = e ∧ s.target = SockState.OPEN) ∧
    ((false, d) ∈ sessionSends s (Ev.targetMessage e) ↔
      d = e ∧ s.server = SockState.OPEN) ∧
    sessionSends s Ev.serverClose = [] ∧
    sessionSends s Ev.targetClose = [] ∧
    sessionStep s (Ev.serverMessage e) = s ∧
    sessionStep s (Ev.targetMessage e) = s := by
  refine ⟨?_, ?_, rfl, rfl, rfl, rfl⟩
  · by_cases h : s.target = SockState.OPEN <;> simp [sessionSends, h]
  · by_cases h : s.server = SockState.OPEN <;> simp [sessionSends, h]

/-- Witness for C2 at a concrete session and payload. -/
theorem claim_C2_witness :
    ((true, Data.binary [1, 2, 3]) ∈
      sessionSends { server := SockState.OPEN, target := SockState.OPEN }
        (Ev.serverMessage (Data.binary [1, 2, 3])) ↔
      Data.binary [1, 2, 3] = Data.binary [1, 2, 3] ∧
        SockState.OPEN = SockState.OPEN) ∧
    ((true, Data.binary [1, 2, 3]) ∈
      sessionSends { server := SockState.OPEN, target := SockState.CLOSING }
        (Ev.serverMessage (Data.binary [1, 2, 3])) ↔
      Data.binary [1, 2, 3] = Data.binary [1, 2, 3] ∧
        SockState.CLOSING = SockState.OPEN) := by
  exact ⟨(claim_C2_message_forwarding
            { server := SockState.OPEN, target := SockState.OPEN }
            (Data.binary [1, 2, 3]) (Data.binary [1, 2, 3])).1,
         (claim_C2_message_forwarding
            { server := SockState.OPEN, target := SockState.CLOSING }
            (Data.binary [1, 2, 3]) (Data.binary [1, 2, 3])).1⟩

/-- Claim C9: an OPTIONS request, on any path and with any headers, is
answered directly by the preflight branch: status 204 with the configured
CORS headers, and no outbound connection of any kind is initiated. -/
theorem claim_C9_options_preflight (cfg : Config) (req : Req)
    (h : req.method = "OPTIONS") :
    workerFetch cfg req = Dispatch.preflight (handleCORS cfg) ∧
    (handleCORS cfg).status = 204 ∧
    hget (handleCORS cfg).headers "Access-Control-Allow-Origin" = some cfg.CORS.allowOrigin ∧
    hget (handleCORS cfg).headers "Access-Control-Allow-Methods" = some cfg.CORS.allowMethods ∧
    hget (handleCORS cfg).headers "Access-Control-Allow-Headers" = some cfg.CORS.allowHeaders ∧
    hget (handleCORS cfg).headers "Access-Control-Max-Age" = some (toString cfg.CORS.maxAge) ∧
    dispatchOutbound (workerFetch cfg req) = none := by
  refine ⟨by simp [workerFetch, h], rfl, rfl, rfl, rfl, rfl, ?_⟩
  simp [workerFetch, h, dispatchOutbound]

/-- A concrete OPTIONS request used to witness C9. -/
def optionsReq : Req where
  method := "OPTIONS"
  url := { pathname := "/x", search := "", targetParam := none }
  headers := [("Origin", "https://a.example")]

/-- Witness for C9 at a concrete OPTIONS request. -/
theorem claim_C9_witness :
    workerFetch CONFIG optionsReq = Dispatch.preflight (handleCORS CONFIG) ∧
    (handleCORS CONFIG).status = 204 ∧
    hget (handleCORS CONFIG).headers "Access-Control-Max-Age" = some "86400" ∧
    dispatchOutbound (workerFetch CONFIG optionsReq) = none := by
  have h := claim_C9_options_preflight CONFIG optionsReq rfl
  exact ⟨h.1, h.2.1, h.2.2.2.2.2.1, h.2.2.2.2.2.2⟩

/-- Claim C7: a WebSocket upgrade whose target parses with scheme `http`
is dialled with scheme `ws`, an `https` target with scheme `wss`, and
`ws`/`wss` targets are dialled unchanged; host and path are untouched in
every case. -/
theorem claim_C7_scheme_coercion (req : Req) (t : String) (u : Url)
    (h1 : req.url.targetParam = some t) (h2 : ¬ t = "")
    (h3 : parseUrl t = some u) :
    handleWebSocket req = WsResult.session (coerceWsScheme u) ∧
    (u.scheme = "http" → coerceWsScheme u = { u with scheme := "ws" }) ∧
    (u.scheme = "https" → coerceWsScheme u = { u with scheme := "wss" }) ∧
    (u.scheme = "ws" → coerceWsScheme u = u) ∧
    (u.scheme = "wss" → coerceWsScheme u = u) ∧
    (coerceWsScheme u).host = u.host ∧
    (coerceWsScheme u).path = u.path := by
  refine ⟨by simp [handleWebSocket, h1, h2, h3], ?_, ?_, ?_, ?_, ?_, ?_⟩
  · intro hs
    unfold coerceWsScheme
    rw [hs, if_pos rfl]
  · intro hs
    unfold coerceWsScheme
    rw [hs, if_neg (by decide), if_pos rfl]
  · intro hs
    unfold coerceWsScheme
    rw [hs, if_neg (by decide), if_neg (by decide)]
  · intro hs
    unfold coerceWsScheme
    rw [hs, if_neg (by decide), if_neg (by decide)]
  · unfold coerceWsScheme
    split <;> try rfl
    split <;> rfl
  · unfold coerceWsScheme
    split <;> try rfl
    split <;> rfl

/-- A concrete upgrade request with an `https` target, witnessing C7. -/
def upgradeReq : Req where
  method := "GET"
  url := { pathname := "/", search := "?target=https://x.example/y",
           targetParam := some "https://x.example/y" }
  headers := [("Upgrade", "websocket")]

/-- Witness for C7 at the spec's example target `https://x.example/y`. -/
theorem claim_C7_witness :
    handleWebSocket upgradeReq
      = WsResult.session { scheme := "wss", host := "x.example", path := "/y" } := by
  have h := claim_C7_scheme_coercion upgradeReq "https://x.example/y"
    { scheme := "https", host := "x.example", path := "/y" }
    rfl (by decide) (by decide)
  rw [h.1, h.2.2.1 rfl]

/-- Claim C10: the WebSocket upgrade path consults only the `target` query
parameter — its outcome is invariant under the request path and query
string, and a missing parameter yields an immediate 400 with no session and
no outbound dial, even though the HTTP relay path would have resolved a
target from the path or the configured default for the same request. -/
theorem claim_C10_upgrade_query_only (cfg : Config) (req : Req) (p s2 : String)
    (hm : ¬ req.method = "OPTIONS")
    (hu : hget req.headers "Upgrade" = some "websocket")
    (ht : req.url.targetParam = none) :
    workerFetch cfg req = Dispatch.ws (handleWebSocket req) ∧
    handleWebSocket req = WsResult.missingTarget ∧
    wsStatus (handleWebSocket req) = 400 ∧
    (∀ u, ¬ handleWebSocket req = WsResult.session u) ∧
    handleWebSocket { req with url := { req.url with pathname := p, search := s2 } }
      = handleWebSocket req ∧
    dispatchOutbound (workerFetch cfg req) = none := by
  have hws : handleWebSocket req = WsResult.missingTarget := by
    simp [handleWebSocket, ht]
  refine ⟨by simp [workerFetch, hm, hu], hws, by rw [hws]; rfl, ?_, ?_, ?_⟩
  · intro u hc
    rw [hws] at hc
    exact WsResult.noConfusion hc
  · simp [handleWebSocket, ht]
  · simp [workerFetch, hm, hu, dispatchOutbound, hws]

/-- A concrete upgrade request with a path target but no query parameter,
witnessing C10. -/
def upgradeNoParamReq : Req where
  method := "GET"
  url := { pathname := "/https://example.com", search := "", targetParam := none }
  headers := [("Upgrade", "websocket")]

/-- Witness for C10: a request whose path would resolve on the HTTP relay
path still gets the 400 missing-target outcome on the upgrade path. -/
theorem claim_C10_witness :
    handleWebSocket upgradeNoParamReq = WsResult.missingTarget ∧
    wsStatus (handleWebSocket upgradeNoParamReq) = 400 ∧
    resolveTarget CONFIG upgradeNoParamReq.url = some "https://example.com" := by
  have h := claim_C10_upgrade_query_only CONFIG upgradeNoParamReq
    "/other" "?q=1" (by decide) rfl rfl
  exact ⟨h.2.1, h.2.2.1, by decide⟩

theorem hget_sanitize (cfg : Config) (hs : Headers) (t : Url) (n : String) :
    hget (sanitizeHeaders cfg hs t) n =
      if lower n = lower "Origin" then none
      else if lower n = lower "Host" then some t.host
      else if ∃ m ∈ cfg.REMOVE_HEADERS, lower n = lower m then none
      else hget hs n := by
  unfold sanitizeHeaders
  rw [hget_hdelete, hget_hset]
  by_cases h1 : lower n = lower "Origin"
  · simp [h1]
  · rw [if_neg h1, if_neg h1]
    by_cases h2 : lower n = lower "Host"
    · simp [h2]
    · rw [if_neg h2, if_neg h2]
      by_cases h3 : ∃ m ∈ cfg.REMOVE_HEADERS, lower n = lower m
      · obtain ⟨m, hm, he⟩ := h3
        rw [hget_deleteAll_mem hs _ n m hm he, if_pos ⟨m, hm, he⟩]
      · have h4 := h3
        push_neg at h4
        rw [hget_deleteAll_not_mem hs _ n h4, if_neg h3]

/-- Claim C5: whatever the inbound header set was, the outbound header set
built by the HTTP relay contains none of the configured removal-list names
(case-insensitively), contains no `Origin` header, and carries the resolved
target's host as its `Host` header. -/
theorem claim_C5_sanitized_outbound (hs : Headers) (target : Url) :
    (∀ n ∈ CONFIG.REMOVE_HEADERS, hget (sanitizeHeaders CONFIG hs target) n = none) ∧
    hget (sanitizeHeaders CONFIG hs target) "Origin" = none ∧
    hget (sanitizeHeaders CONFIG hs target) "Host" = some target.host := by
  refine ⟨?_, ?_, ?_⟩
  · intro n hn
    fin_cases hn <;>
      rw [hget_sanitize, if_neg (by decide), if_neg (by decide), if_pos (by decide)]
  · rw [hget_sanitize, if_pos rfl]
  · rw [hget_sanitize, if_neg (by decide), if_pos rfl]

/-- Witness for C5 at a concrete header set that carries a removal-list
name, an `Origin` header and a stale `Host`. -/
theorem claim_C5_witness :
    hget (sanitizeHeaders CONFIG
        [("CF-Ray", "trace"), ("Origin", "https://caller.example"),
         ("Host", "worker.example"), ("Accept", "text/html")]
        { scheme := "https", host := "example.com", path := "/" }) "cf-ray" = none ∧
    hget (sanitizeHeaders CONFIG
        [("CF-Ray", "trace"), ("Origin", "https://caller.example"),
         ("Host", "worker.example"), ("Accept", "text/html")]
        { scheme := "https", host := "example.com", path := "/" }) "Origin" = none ∧
    hget (sanitizeHeaders CONFIG
        [("CF-Ray", "trace"), ("Origin", "https://caller.example"),
         ("Host", "worker.example"), ("Accept", "text/html")]
        { scheme := "https", host := "example.com", path := "/" }) "Host"
      = some "example.com" := by
  have h := claim_C5_sanitized_outbound
    [("CF-Ray", "trace"), ("Origin", "https://caller.example"),
     ("Host", "worker.example"), ("Accept", "text/html")]
    { scheme := "https", host := "example.com", path := "/" }
  exact ⟨h.1 "cf-ray" (by decide), h.2.1, h.2.2⟩

theorem hget_decorate (h : Headers) (n : String) :
    hget (decorateHeaders CONFIG h) n =
      if ∃ m ∈ CONFIG.REMOVE_HEADERS, lower n = lower m then none
      else if lower n = lower "Referrer-Policy" then
        some "strict-origin-when-cross-origin"
      else if lower n = lower "X-XSS-Protection" then some "1; mode=block"
      else if lower n = lower "X-Frame-Options" then some "SAMEORIGIN"
      else if lower n = lower "X-Content-Type-Options" then some "nosniff"
      else if lower n = lower "Access-Control-Allow-Headers" then some "*"
      else if lower n = lower "Access-Control-Allow-Methods" then
        some "GET, POST, PUT, DELETE, OPTIONS, HEAD, PATCH"
      else if lower n = lower "Access-Control-Allow-Origin" then some "*"
      else hget h n := by
  have e : decorateHeaders CONFIG h =
      deleteAll
        (hset (hset (hset (hset (hset (hset (hset h
          "Access-Control-Allow-Origin" "*")
          "Access-Control-Allow-Methods" "GET, POST, PUT, DELETE, OPTIONS, HEAD, PATCH")
          "Access-Control-Allow-Headers" "*")
          "X-Content-Type-Options" "nosniff")
          "X-Frame-Options" "SAMEORIGIN")
          "X-XSS-Protection" "1; mode=block")
          "Referrer-Policy" "strict-origin-when-cross-origin")
        CONFIG.REMOVE_HEADERS := rfl
  rw [e]
  by_cases h0 : ∃ m ∈ CONFIG.REMOVE_HEADERS, lower n = lower m
  · obtain ⟨m, hm, he⟩ := h0
    rw [hget_deleteAll_mem _ _ n m hm he, if_pos ⟨m, hm, he⟩]
  · have h1 := h0
    push_neg at h1
    rw [hget_deleteAll_not_mem _ _ n h1, if_neg h0,
        hget_hset, hget_hset, hget_hset, hget_hset, hget_hset, hget_hset, hget_hset]

theorem decorateResponse_headers (cfg : Config) (r : Resp) :
    (decorateResponse cfg r).headers = decorateHeaders cfg r.headers := by
  cases r
  rfl

theorem decorateResponse_status (cfg : Config) (r : Resp) :
    (decorateResponse cfg r).status = r.status := by
  cases r
  rfl

theorem decorateResponse_body (cfg : Config) (r : Resp) :
    (decorateResponse cfg r).body = r.body := by
  cases r
  rfl

/-- Claim C6: on the response path with CORS enabled (as configured), the
`Access-Control-Allow-Origin` header equals exactly the configured value no
matter what the target's response carried, every configured security header
is merged in, and none of the removal-list names survives — the removal
list being applied after the CORS and security headers are set. -/
theorem claim_C6_decorated_response (r : Resp) :
    CONFIG.CORS.enabled = true ∧
    hget (decorateResponse CONFIG r).headers "Access-Control-Allow-Origin"
      = some CONFIG.CORS.allowOrigin ∧
    (∀ p ∈ CONFIG.SECURITY_HEADERS,
      hget (decorateResponse CONFIG r).headers p.1 = some p.2) ∧
    (∀ n ∈ CONFIG.REMOVE_HEADERS,
      hget (decorateResponse CONFIG r).headers n = none) ∧
    (decorateResponse CONFIG r).status = r.status ∧
    (decorateResponse CONFIG r).body = r.body := by
  refine ⟨rfl, ?_, ?_, ?_, decorateResponse_status CONFIG r, decorateResponse_body CONFIG r⟩
  · rw [decorateResponse_headers, hget_decorate, if_neg (by decide), if_neg (by decide),
        if_neg (by decide), if_neg (by decide), if_neg (by decide), if_neg (by decide),
        if_neg (by decide), if_pos rfl]
    rfl
  · intro p hp
    rw [decorateResponse_headers]
    fin_cases hp
    · rw [hget_decorate, if_neg (by decide), if_neg (by decide), if_neg (by decide),
          if_neg (by decide), if_pos (by decide)]
    · rw [hget_decorate, if_neg (by decide), if_neg (by decide), if_neg (by decide),
          if_pos (by decide)]
    · rw [hget_decorate, if_neg (by decide), if_neg (by decide), if_pos (by decide)]
    · rw [hget_decorate, if_neg (by decide), if_pos rfl]
  · intro n hn
    rw [decorateResponse_headers]
    fin_cases hn <;> rw [hget_decorate, if_pos (by decide)]

/-- A concrete upstream response whose headers clash with the CORS value,
carry a removal-list name and echo nothing else, witnessing C6. -/
def upstreamResp : Resp where
  status := 200
  headers := [("Access-Control-Allow-Origin", "https://other.example"),
              ("CF-Connecting-IP", "9.9.9.9"), ("Server", "nginx")]
  body := .stream

/-- Counterexample to C1 as stated: the half-open state — caller-facing
socket closed while the target socket is open — is reachable. A close that
fires while the outbound socket is still connecting closes nothing (the
handler only acts when the peer's readyState is open), and the outbound
handshake then completes with nobody left to tear it down. -/
theorem claim_C1_counterexample :
    Reachable { server := SockState.CLOSED, target := SockState.OPEN } ∧
    halfOpen { server := SockState.CLOSED, target := SockState.OPEN } := by
  constructor
  · have h0 : Reachable initialSession := Reachable.init
    have h1 := Reachable.next initialSession Ev.serverClose h0 (by decide)
    have h2 := Reachable.next _ Ev.targetOpen h1 (by decide)
    have e : sessionStep (sessionStep initialSession Ev.serverClose) Ev.targetOpen
        = { server := SockState.CLOSED, target := SockState.OPEN } := by decide
    rwa [e] at h2
  · exact Or.inl ⟨rfl, rfl⟩

/-- Claim C1 (amended): when a close or error event fires on one socket
while the peer is open, the installed handler closes the peer; a close
event marks its own socket closed; and a synchronous failure of the
outbound dial closes the caller-facing socket unconditionally. The
propagation is only per-event: a close arriving while the peer is still
connecting leaves the peer untouched. -/
theorem claim_C1_close_propagation (s : Session) :
    (s.target = SockState.OPEN →
      (sessionStep s Ev.serverClose).target = SockState.CLOSING ∧
      (sessionStep s Ev.serverError).target = SockState.CLOSING) ∧
    (s.server = SockState.OPEN →
      (sessionStep s Ev.targetClose).server = SockState.CLOSING ∧
      (sessionStep s Ev.targetError).server = SockState.CLOSING) ∧
    (sessionStep s Ev.serverClose).server = SockState.CLOSED ∧
    (sessionStep s Ev.targetClose).target = SockState.CLOSED ∧
    ¬ (sessionStep s Ev.dialFail).server = SockState.OPEN ∧
    (s.target = SockState.CONNECTING →
      (sessionStep s Ev.serverClose).target = SockState.CONNECTING) := by
  obtain ⟨sv, tg⟩ := s
  cases sv <;> cases tg <;> exact (by decide)

/-- Witness for C1 at concrete sessions. -/
theorem claim_C1_witness :
    (sessionStep { server := SockState.OPEN, target := SockState.OPEN }
        Ev.serverClose).target = SockState.CLOSING ∧
    (sessionStep { server := SockState.OPEN, target := SockState.OPEN }
        Ev.targetClose).server = SockState.CLOSING ∧
    ¬ (sessionStep initialSession Ev.dialFail).server = SockState.OPEN := by
  have h1 := claim_C1_close_propagation { server := SockState.OPEN, target := SockState.OPEN }
  have h2 := claim_C1_close_propagation initialSession
  exact ⟨(h1.1 rfl).1, (h1.2.1 rfl).1, h2.2.2.2.2.1⟩

/-- The inbound URL with a present-but-empty `target` parameter used
against C3. -/
def emptyParamUrl : InUrl where
  pathname := "/https://example.com"
  search := ""
  targetParam := some ""

/-- Counterexample to C3 as stated: with the `target` query parameter
present but empty, the parameter is not used — JavaScript truthiness makes
the empty string fall through to the path-based target. -/
theorem claim_C3_counterexample :
    emptyParamUrl.targetParam.isSome = true ∧
    resolveTarget CONFIG emptyParamUrl = some "https://example.com" ∧
    ¬ resolveTarget CONFIG emptyParamUrl = some "" := by
  refine ⟨rfl, by decide, by decide⟩

/-- Claim C3 (amended): target resolution is total and ordered — a
non-empty `target` query parameter wins; otherwise the path without its
leading slash when it starts with the literal `http`; otherwise the
non-empty configured default concatenated with path and query; otherwise no
target, in which case the handler returns the status-200 informational
response rather than erroring. -/
theorem claim_C3_resolution_order (cfg : Config) (u : InUrl) :
    (∀ t, u.targetParam = some t → ¬ t = "" → resolveTarget cfg u = some t) ∧
    ((u.targetParam = none ∨ u.targetParam = some "") →
      ¬ strDrop u.pathname 1 = "" →
      strStartsWith (strDrop u.pathname 1) "http" = true →
      resolveTarget cfg u = some (strDrop u.pathname 1)) ∧
    ((u.targetParam = none ∨ u.targetParam = some "") →
      (strDrop u.pathname 1 = "" ∨ strStartsWith (strDrop u.pathname 1) "http" = false) →
      ∀ d, cfg.DEFAULT_TARGET = some d → ¬ d = "" →
      resolveTarget cfg u = some (d ++ u.pathname ++ u.search)) ∧
    ((u.targetParam = none ∨ u.targetParam = some "") →
      (strDrop u.pathname 1 = "" ∨ strStartsWith (strDrop u.pathname 1) "http" = false) →
      (cfg.DEFAULT_TARGET = none ∨ cfg.DEFAULT_TARGET = some "") →
      resolveTarget cfg u = none) ∧
    (∀ m hs, resolveTarget cfg u = none →
      handleHTTP cfg { method := m, url := u, headers := hs } = HttpResult.info ∧
      (httpEarlyResponse cfg HttpResult.info).map Resp.status = some 200) := by
  refine ⟨?_, ?_, ?_, ?_, ?_⟩
  · intro t hp hne
    simp [resolveTarget, jsTruthy, hp, hne]
  · intro hp hne hsw
    rcases hp with hp | hp <;> simp [resolveTarget, jsTruthy, hp, hne, hsw]
  · intro hp hpath d hd hdne
    rcases hp with hp | hp <;> rcases hpath with hpath | hpath <;>
      simp [resolveTarget, jsTruthy, hp, hpath, hd, hdne]
  · intro hp hpath hd
    rcases hp with hp | hp <;> rcases hpath with hpath | hpath <;>
      rcases hd with hd | hd <;>
      simp [resolveTarget, jsTruthy, hp, hpath, hd]
  · intro m hs hnone
    exact ⟨by simp [handleHTTP, hnone], rfl⟩

/-- Witness for C3: each resolution tier at a concrete request. -/
theorem claim_C3_witness :
    resolveTarget CONFIG { pathname := "/", search := "", targetParam := some "https://a.example/p" }
      = some "https://a.example/p" ∧
    resolveTarget CONFIG { pathname := "/https://b.example", search := "", targetParam := none }
      = some "https://b.example" ∧
    resolveTarget { CONFIG with DEFAULT_TARGET := some "https://d.example" }
        { pathname := "/a", search := "?b=1", targetParam := none }
      = some "https://d.example/a?b=1" ∧
    resolveTarget CONFIG { pathname := "/plain", search := "", targetParam := none } = none ∧
    handleHTTP CONFIG { method := "GET", url := { pathname := "/plain", search := "", targetParam := none }, headers := [] }
      = HttpResult.info := by
  have h4 := (claim_C3_resolution_order CONFIG
    { pathname := "/plain", search := "", targetParam := none }).2.2.2.1
    (Or.inl rfl) (Or.inr (by decide)) (Or.inl rfl)
  refine ⟨?_, ?_, ?_, h4, ?_⟩
  · exact (claim_C3_resolution_order CONFIG _).1 _ rfl (by decide)
  · exact (claim_C3_resolution_order CONFIG _).2.1 (Or.inl rfl) (by decide) (by decide)
  · exact (claim_C3_resolution_order { CONFIG with DEFAULT_TARGET := some "https://d.example" }
      { pathname := "/a", search := "?b=1", targetParam := none }).2.2.1
      (Or.inl rfl) (Or.inr (by decide)) "https://d.example" rfl (by decide)
  · exact ((claim_C3_resolution_order CONFIG _).2.2.2.2 "GET" [] h4).1

/-- The concrete request with an unparsable target used against C4. -/
def malformedReq : Req where
  method := "GET"
  url := { pathname := "/", search := "?target=notaurl", targetParam := some "notaurl" }
  headers := []

/-- Counterexample to C4 as stated: on the HTTP relay path a malformed
target string does not produce a 400 — the URL parse failure lands in the
catch branch, which returns the generic 500 error response. -/
theorem claim_C4_counterexample :
    parseUrl "notaurl" = none ∧
    handleHTTP CONFIG malformedReq = HttpResult.malformed ∧
    (httpEarlyResponse CONFIG HttpResult.malformed).map Resp.status = some 500 ∧
    ¬ (httpEarlyResponse CONFIG HttpResult.malformed).map Resp.status = some 400 := by
  refine ⟨by decide, by decide, rfl, by decide⟩

/-- Claim C4 (amended): a resolved target string that is not a valid
absolute URL yields status 400 on the WebSocket upgrade path, but the
generic status-500 JSON error on the HTTP relay path. -/
theorem claim_C4_malformed_target (cfg : Config) (req : Req) (t : String)
    (hws : req.url.targetParam = some t) (hne : ¬ t = "")
    (hp : parseUrl t = none) :
    handleWebSocket req = WsResult.wsError ∧
    wsStatus (handleWebSocket req) = 400 ∧
    resolveTarget cfg req.url = some t ∧
    handleHTTP cfg req = HttpResult.malformed ∧
    (httpEarlyResponse cfg (handleHTTP cfg req)).map Resp.status = some 500 := by
  have h1 : handleWebSocket req = WsResult.wsError := by
    simp [handleWebSocket, hws, hne, hp]
  have h2 : resolveTarget cfg req.url = some t := by
    simp [resolveTarget, jsTruthy, hws, hne]
  have h3 : handleHTTP cfg req = HttpResult.malformed := by
    simp [handleHTTP, h2, hp]
  exact ⟨h1, by rw [h1]; rfl, h2, h3, by rw [h3]; rfl⟩

/-- Witness for C4 at the concrete unparsable target. -/
theorem claim_C4_witness :
    handleWebSocket malformedReq = WsResult.wsError ∧
    wsStatus (handleWebSocket malformedReq) = 400 ∧
    handleHTTP CONFIG malformedReq = HttpResult.malformed := by
  have h := claim_C4_malformed_target CONFIG malformedReq "notaurl" rfl (by decide) (by decide)
  exact ⟨h.1, h.2.1, h.2.2.2.1⟩

theorem handleHTTP_timeout_irrelevant (cfg : Config) (req : Req) (t : Nat) :
    handleHTTP { cfg with TIMEOUT := t } req = handleHTTP cfg req := by
  cases cfg
  rfl

/-- Claim C8: the outbound fetch of the HTTP relay is not bounded by the
configured timeout — the request init the worker builds carries no abort
signal, and the handler's outcome is independent of `CONFIG.TIMEOUT`, which
no code path reads; when the fetch does fail, the catch branch returns the
500 JSON error body with the error flag set. -/
theorem claim_C8_no_timeout_bound (cfg : Config) (req : Req) (r : OutRequest)
    (h : handleHTTP cfg req = HttpResult.relay r) :
    r.signal = none ∧
    (∀ t1 t2 : Nat,
      handleHTTP { cfg with TIMEOUT := t1 } req = handleHTTP { cfg with TIMEOUT := t2 } req) ∧
    (∀ msg, (relayOutcome cfg (Except.error msg)).status = 500 ∧
      (relayOutcome cfg (Except.error msg)).body = Body.errorJson true msg) := by
  refine ⟨?_, ?_, ?_⟩
  · cases hres : resolveTarget cfg req.url with
    | none => simp [handleHTTP, hres] at h
    | some t =>
      cases hp : parseUrl t with
      | none => simp [handleHTTP, hres, hp] at h
      | some target =>
        simp [handleHTTP, hres, hp] at h
        rw [← h]
  · intro t1 t2
    rw [handleHTTP_timeout_irrelevant cfg req t1, handleHTTP_timeout_irrelevant cfg req t2]
  · intro msg
    exact ⟨rfl, rfl⟩

/-- The concrete relay request and outbound request used to witness C8. -/
def relayReq : Req where
  method := "GET"
  url := { pathname := "/", search := "?target=https://example.com", targetParam := some "https://example.com" }
  headers := []

/-- The outbound request the worker builds for `relayReq`. -/
def relayOut : OutRequest where
  url := { scheme := "https", host := "example.com", path := "/" }
  method := "GET"
  headers := [("Host", "example.com")]
  redirect := "follow"
  signal := none

/-- Witness for C8 at a concrete relay request. -/
theorem claim_C8_witness :
    relayOut.signal = none ∧
    handleHTTP { CONFIG with TIMEOUT := 1 } relayReq
      = handleHTTP { CONFIG with TIMEOUT := 999999 } relayReq ∧
    (relayOutcome CONFIG (Except.error "connect failed")).status = 500 ∧
    (relayOutcome CONFIG (Except.error "connect failed")).body
      = Body.errorJson true "connect failed" := by
  have h := claim_C8_no_timeout_bound CONFIG relayReq relayOut (by decide)
  exact ⟨h.1, h.2.1 1 999999, (h.2.2 "connect failed").1, (h.2.2 "connect failed").2⟩

/-- Witness for C6 at a concrete upstream response. -/
theorem claim_C6_witness :
    hget (decorateResponse CONFIG upstreamResp).headers "Access-Control-Allow-Origin"
      = some "*" ∧
    hget (decorateResponse CONFIG upstreamResp).headers "X-Frame-Options"
      = some "SAMEORIGIN" ∧
    hget (decorateResponse CONFIG upstreamResp).headers "cf-connecting-ip" = none ∧
    (decorateResponse CONFIG upstreamResp).status = 200 := by
  have h := claim_C6_decorated_response upstreamResp
  exact ⟨h.2.1, h.2.2.1 ("X-Frame-Options", "SAMEORIGIN") (by decide),
         h.2.2.2.1 "cf-connecting-ip" (by decide), h.2.2.2.2.1⟩
